import Mathlib

/-!
Verification of the session-lifecycle shim in `src/python_live_api.py`
(a WebSocket relay between a browser client and an upstream streaming
inference service).

The Python module is shallowly embedded:

* The upstream service (`client.aio.live.connect`, `session.send_realtime_input`,
  `session.receive`, `session.close`) is an external collaborator.  Its behaviour
  during one operation is captured by an `Upstream` record: the outcome of the
  `connect` call, the outcome of the `send_realtime_input` call, and the sequence
  of events produced by iterating `session.receive()` (each iteration either
  yields a response frame or raises an exception).
* Exceptions are modelled with `Except String`; the string is the exception's
  description text (`str(e)` in the source).
* The module-level mutable state is `ApiState` (the stored session handle,
  modelled as an opaque `Nat`).
* `asyncio.get_event_loop().time()` is modelled by a clock value passed in.
* Python dict results become the `Result` structure; a JSON `null` /
  missing-key distinction is kept with nested `Option`s.
* `base64.b64decode` / `base64.b64encode` are modelled by executable RFC 4648
  implementations below.
-/

/-- One `part` of a `model_turn`: `part.text` may be absent (`None`). -/
structure TurnPart where
  text : Option String
deriving DecidableEq, Repr

/-- `response.server_content`: `model_turn` (with its list of parts) may be
`None`; `turn_complete` is a flag. -/
structure ServerContent where
  modelTurn : Option (List TurnPart)
  turnComplete : Bool
deriving DecidableEq, Repr

/-- One response frame yielded by `session.receive()`: `response.data` is an
optional raw binary payload (a byte list), `response.server_content` is
optional. -/
structure Frame where
  data : Option (List Nat)
  serverContent : Option ServerContent
deriving DecidableEq, Repr

/-- One iteration of `async for response in self.session.receive()`: either a
frame is yielded or an exception with the given description is raised. -/
inductive RecvEvent where
  | frame (f : Frame)
  | exn (e : String)
deriving DecidableEq, Repr

/-- The behaviour of the upstream service during one operation:
the result of `client.aio.live.connect` (a fresh handle or an exception),
the result of `session.send_realtime_input`, and the stream of events
produced by `session.receive()`. -/
structure Upstream where
  connect : Except String Nat
  send : Except String Unit
  events : List RecvEvent

/-- The mutable state of `SecurityCameraLiveAPI`: `self.session` is `None`
or an opaque handle. -/
structure ApiState where
  session : Option Nat
deriving DecidableEq, Repr

/-- A result dictionary returned by `process_video_frame` /
`process_audio_chunk`.  `audioResponse = none` means the dict has no
`audio_response` key; `audioResponse = some none` means the key is present
with value `null`.  `timestamp = some t` models the key being present with
the clock reading `t`. -/
structure Result where
  rtype : String
  content : String
  audioResponse : Option (Option String)
  timestamp : Option Nat
deriving DecidableEq, Repr

/- ## base64 (model of Python's `base64.b64decode` / `b64encode`) -/

/-- Value of a character in the standard base64 alphabet, `none` if it is not
an alphabet character. -/
def b64Val (c : Char) : Option Nat :=
  if 65 ≤ c.toNat ∧ c.toNat ≤ 90 then some (c.toNat - 65)
  else if 97 ≤ c.toNat ∧ c.toNat ≤ 122 then some (c.toNat - 97 + 26)
  else if 48 ≤ c.toNat ∧ c.toNat ≤ 57 then some (c.toNat - 48 + 52)
  else if c = '+' then some 62
  else if c = '/' then some 63
  else none

/-- Character for a 6-bit value in the standard base64 alphabet. -/
def b64Char (n : Nat) : Char :=
  if n < 26 then Char.ofNat (65 + n)
  else if n < 52 then Char.ofNat (97 + (n - 26))
  else if n < 62 then Char.ofNat (48 + (n - 52))
  else if n = 62 then '+'
  else '/'

/-- Decode a run of 4-character base64 groups (padding only allowed in the
final group), returning the byte list or the exception text. -/
def b64Groups : List Char → Except String (List Nat)
  | [] => .ok []
  | a :: b :: c :: d :: rest =>
    match b64Val a, b64Val b with
    | some va, some vb =>
      if c = '=' then
        if d = '=' ∧ rest = [] then .ok [va * 4 + vb / 16]
        else .error "Invalid base64-encoded string"
      else
        match b64Val c with
        | some vc =>
          if d = '=' then
            if rest = [] then .ok [va * 4 + vb / 16, (vb % 16) * 16 + vc / 4]
            else .error "Invalid base64-encoded string"
          else
            match b64Val d with
            | some vd =>
              match b64Groups rest with
              | .ok tail =>
                .ok ([va * 4 + vb / 16, (vb % 16) * 16 + vc / 4,
                      (vc % 4) * 64 + vd] ++ tail)
              | .error e => .error e
            | none => .error "Invalid base64-encoded string"
        | none => .error "Invalid base64-encoded string"
    | _, _ => .error "Invalid base64-encoded string"
  | _ => .error "Incorrect padding"

/-- Model of `base64.b64decode`: characters outside the alphabet and `=` are
discarded before the padding check, then 4-character groups are decoded;
failure raises (returns the exception text). -/
def b64decode (s : String) : Except String (List Nat) :=
  b64Groups (s.toList.filter (fun c => (b64Val c).isSome || c == '='))

/-- Model of `base64.b64encode(...).decode()`: RFC 4648 encoding of a byte
list. -/
def b64encode : List Nat → String
  | [] => ""
  | [a] => String.mk [b64Char (a / 4), b64Char ((a % 4) * 16), '=', '=']
  | [a, b] => String.mk [b64Char (a / 4), b64Char ((a % 4) * 16 + b / 16),
      b64Char ((b % 16) * 4), '=']
  | a :: b :: c :: rest =>
    String.mk [b64Char (a / 4), b64Char ((a % 4) * 16 + b / 16),
      b64Char ((b % 16) * 4 + c / 64), b64Char (c % 64)] ++ b64encode rest

/- ## Frame observation helpers (the loop bodies of the drain loops) -/

/-- Text contributed by one frame: the concatenation of `part.text` over the
parts of `server_content.model_turn`, skipping falsy (`None` or empty) texts,
as in `if part.text: response_text += part.text`. -/
def frameText (f : Frame) : String :=
  match f.serverContent with
  | none => ""
  | some sc =>
    match sc.modelTurn with
    | none => ""
    | some parts =>
      parts.foldl (fun acc p =>
        match p.text with
        | some t => if t = "" then acc else acc ++ t
        | none => acc) ""

/-- `response.server_content and response.server_content.turn_complete`. -/
def frameTurnComplete (f : Frame) : Bool :=
  match f.serverContent with
  | some sc => sc.turnComplete
  | none => false

/-- The truthy binary payload of a frame (`if response.data:`): `none` when
`data` is absent or the empty byte string. -/
def framePayload (f : Frame) : Option (List Nat) :=
  match f.data with
  | some bs => if bs.isEmpty then none else some bs
  | none => none

/- ## The drain loops -/

/-- The drain loop of `process_video_frame` (lines 73-82): iterate the
receive events accumulating text, stop after the first turn-complete frame;
an exception mid-stream aborts with its description. -/
def drainVideo : List RecvEvent → String → Except String String
  | [], acc => .ok acc
  | .exn e :: _, _ => .error e
  | .frame f :: rest, acc =>
    let acc2 := acc ++ frameText f
    if frameTurnComplete f then .ok acc2 else drainVideo rest acc2

/-- One iteration's update of the captured audio payload
(`if response.data: audio_response = base64.b64encode(response.data).decode()`). -/
def audioUpd (aud : Option String) (f : Frame) : Option String :=
  match framePayload f with
  | some bs => some (b64encode bs)
  | none => aud

/-- The drain loop of `process_audio_chunk` (lines 115-129): like the video
drain but additionally capturing (and base64-encoding) the latest truthy
binary payload. -/
def drainAudio : List RecvEvent → String → Option String →
    Except String (String × Option String)
  | [], acc, aud => .ok (acc, aud)
  | .exn e :: _, _, _ => .error e
  | .frame f :: rest, acc, aud =>
    let aud2 := audioUpd aud f
    let acc2 := acc ++ frameText f
    if frameTurnComplete f then .ok (acc2, aud2) else drainAudio rest acc2 aud2

/- ## The Session Manager operations -/

/-- `start_live_session` (lines 29-54): connect; on success store the new
handle and return `true`; on an exception leave the stored handle unchanged
and return `false`. -/
def start_live_session (st : ApiState) (up : Upstream) : ApiState × Bool :=
  match up.connect with
  | .ok h => (⟨some h⟩, true)
  | .error _ => (st, false)

/-- The exception text raised by `self.session.send_realtime_input` when
`self.session` is `None` (the implicit start failed); the description of the
`AttributeError` is opaque, modelled by this constant. -/
def noneSessionError : String :=
  "NoneType object has no attribute send_realtime_input"

/-- The error dictionary built in the `except` blocks of both media
operations. -/
def errorResult (e : String) (clock : Nat) : Result :=
  ⟨"error", e, none, some clock⟩

/-- The common prelude of both media operations:
`if not self.session: await self.start_live_session()`. -/
def ensure_session (st : ApiState) (up : Upstream) : ApiState :=
  if st.session = none then (start_live_session st up).1 else st

/-- The `try` block of `process_video_frame` (lines 61-96), run in state
`st1`: decode the base64 input, send it, drain one turn; any exception is
converted to an error result.  (When `st1.session` is `None` the attribute
access on `None` raises before the arguments are evaluated.) -/
def video_result (st1 : ApiState) (up : Upstream) (clock : Nat)
    (frame_data : String) : Result :=
  match st1.session with
  | none => errorResult noneSessionError clock
  | some _ =>
    match b64decode frame_data with
    | .error e => errorResult e clock
    | .ok _ =>
      match up.send with
      | .error e => errorResult e clock
      | .ok _ =>
        match drainVideo up.events "" with
        | .error e => errorResult e clock
        | .ok text => ⟨"analysis", text, none, some clock⟩

/-- `process_video_frame` (lines 56-96): implicit start when no session,
then the `try` block. -/
def process_video_frame (st : ApiState) (up : Upstream) (clock : Nat)
    (frame_data : String) : ApiState × Result :=
  (ensure_session st up, video_result (ensure_session st up) up clock frame_data)

/-- The `try` block of `process_audio_chunk` (lines 103-144): same shape as
the video operation, with the audio drain; the success dict carries an
`audio_response` key. -/
def audio_result (st1 : ApiState) (up : Upstream) (clock : Nat)
    (audio_data : String) : Result :=
  match st1.session with
  | none => errorResult noneSessionError clock
  | some _ =>
    match b64decode audio_data with
    | .error e => errorResult e clock
    | .ok _ =>
      match up.send with
      | .error e => errorResult e clock
      | .ok _ =>
        match drainAudio up.events "" none with
        | .error e => errorResult e clock
        | .ok (text, aud) => ⟨"audio_analysis", text, some aud, some clock⟩

/-- `process_audio_chunk` (lines 98-144): implicit start when no session,
then the `try` block.  The `mime_type` argument only tags the outgoing blob;
the upstream outcome is given by `up`. -/
def process_audio_chunk (st : ApiState) (up : Upstream) (clock : Nat)
    (audio_data : String) (_mime_type : String) : ApiState × Result :=
  (ensure_session st up, audio_result (ensure_session st up) up clock audio_data)

/-- `close_session` (lines 146-151): if a session exists, close the upstream
handle and clear the stored handle; otherwise do nothing.  The second
component lists the upstream handles that were closed by the call. -/
def close_session (st : ApiState) : ApiState × List Nat :=
  match st.session with
  | some h => (⟨none⟩, [h])
  | none => (st, [])

/- ## The Connection Dispatcher (`handle_client`, lines 158-197) -/

/-- An inbound raw WebSocket message after the `json.loads` attempt:
either unparseable, or a JSON object with an optional `type` field, an
optional `data` field and an optional `mime_type` field. -/
inductive InMsg where
  | malformed
  | parsed (ty : Option String) (dat : Option String) (mime : Option String)
deriving DecidableEq, Repr

/-- An outbound message written with `websocket.send(json.dumps(...))`:
either a media result or a `session_status` envelope. -/
inductive OutMsg where
  | result (r : Result)
  | sessionStatus (status : String)
deriving DecidableEq, Repr

/-- Outcome of handling one inbound message inside the `async for` loop:
`ok` continues the loop with the new state and the responses sent;
`crash` means an exception escaped the loop body (e.g. `json.loads` or a
`KeyError`), terminating this connection's receive loop. -/
inductive StepOut where
  | ok (st : ApiState) (sent : List OutMsg)
  | crash (st : ApiState)
deriving DecidableEq, Repr

/-- The body of the `async for message in websocket` loop (lines 164-190):
parse, dispatch on `data["type"]`, send back the JSON-encoded result.
A missing `type` or (for media messages) a missing `data` key raises a
`KeyError`; unparseable JSON raises in `json.loads`; both escape the loop. -/
def handleMessage (st : ApiState) (up : Upstream) (clock : Nat) :
    InMsg → StepOut
  | .malformed => .crash st
  | .parsed none _ _ => .crash st
  | .parsed (some ty) dat mime =>
    if ty = "video_frame" then
      match dat with
      | none => .crash st
      | some d =>
        let (st2, r) := process_video_frame st up clock d
        .ok st2 [.result r]
    else if ty = "audio_chunk" then
      match dat with
      | none => .crash st
      | some d =>
        let (st2, r) := process_audio_chunk st up clock d
          (mime.getD "audio/webm")
        .ok st2 [.result r]
    else if ty = "start_session" then
      let (st2, success) := start_live_session st up
      .ok st2 [.sessionStatus (if success then "connected" else "error")]
    else if ty = "stop_session" then
      let (st2, _) := close_session st
      .ok st2 [.sessionStatus "disconnected"]
    else
      .ok st []

/-- The receive loop of `handle_client` over a sequence of inbound messages,
each paired with the upstream behaviour and clock reading for its handling.
Returns the final state, all responses sent on the connection, and whether
the loop ran to completion (`true`) or was terminated by an exception
escaping the loop body (`false`, in which case the remaining messages are
never processed). -/
def runClient (st : ApiState) :
    List (InMsg × Upstream × Nat) → ApiState × List OutMsg × Bool
  | [] => (st, [], true)
  | (m, up, clock) :: rest =>
    match handleMessage st up clock m with
    | .ok st2 sent =>
      let (st3, sent2, done) := runClient st2 rest
      (st3, sent ++ sent2, done)
    | .crash st2 => (st2, [], false)

/- ## Specification-side helpers -/

/-- Concatenation, in arrival order, of the text parts of a list of frames. -/
def turnText : List Frame → String
  | [] => ""
  | f :: rest => frameText f ++ turnText rest

/-- The last truthy binary payload carried by a list of frames, if any. -/
def lastPayload : List Frame → Option (List Nat)
  | [] => none
  | f :: rest =>
    match lastPayload rest with
    | some bs => some bs
    | none => framePayload f

/-- The captured audio payload after folding `audioUpd` over a list of
frames, starting from `aud`. -/
def audioAfter (aud : Option String) : List Frame → Option String
  | [] => aud
  | f :: rest => audioAfter (audioUpd aud f) rest

/-- A parsed inbound message is well-formed (schema of spec §6) when it has a
`type` field and, for the two media message kinds, a `data` field. -/
def wellFormed : InMsg → Prop
  | .malformed => False
  | .parsed ty dat _ =>
    ty.isSome ∧
    ((ty = some "video_frame" ∨ ty = some "audio_chunk") → dat.isSome)

/-- The four message kinds the dispatcher recognises. -/
def knownTypes : List String :=
  ["video_frame", "audio_chunk", "start_session", "stop_session"]

/-- First exception raised by the receive iteration before any turn-complete
frame is seen (i.e. the exception that aborts the drain loop, if any). -/
def drainErr : List RecvEvent → Option String
  | [] => none
  | .exn e :: _ => some e
  | .frame f :: rest => if frameTurnComplete f then none else drainErr rest

/- ## Helper lemmas -/

theorem ensure_session_of_some (st : ApiState) (up : Upstream) (h : Nat)
    (hs : st.session = some h) : ensure_session st up = st := by
  simp [ensure_session, hs]

theorem ensure_session_of_none (st : ApiState) (up : Upstream) (h : Nat)
    (hs : st.session = none) (hc : up.connect = Except.ok h) :
    ensure_session st up = ⟨some h⟩ := by
  simp [ensure_session, hs, start_live_session, hc]

theorem ensure_session_some (st : ApiState) (up : Upstream)
    (hready : st.session.isSome = true ∨ ∃ h, up.connect = Except.ok h) :
    ∃ h, (ensure_session st up).session = some h := by
  cases hs : st.session with
  | some h => exact ⟨h, by rw [ensure_session_of_some st up h hs]; exact hs⟩
  | none =>
    rcases hready with hr | ⟨h, hc⟩
    · rw [hs] at hr; simp at hr
    · exact ⟨h, by rw [ensure_session_of_none st up h hs hc]⟩

theorem b64decode_ok_exists (d : String) (hdec : (b64decode d).isOk = true) :
    ∃ bs, b64decode d = Except.ok bs := by
  cases hb : b64decode d with
  | ok bs => exact ⟨bs, rfl⟩
  | error e => rw [hb] at hdec; simp [Except.isOk, Except.toBool] at hdec

theorem drainVideo_turn : ∀ (pre : List Frame) (tc : Frame)
    (post : List RecvEvent) (acc : String),
    (∀ f ∈ pre, frameTurnComplete f = false) → frameTurnComplete tc = true →
    drainVideo (pre.map RecvEvent.frame ++ RecvEvent.frame tc :: post) acc =
      Except.ok (acc ++ turnText (pre ++ [tc])) := by
  intro pre tc post
  induction pre with
  | nil =>
    intro acc _ htc
    simp [drainVideo, turnText, htc, String.append_empty]
  | cons f rest ih =>
    intro acc hpre htc
    have hf : frameTurnComplete f = false := hpre f (List.mem_cons_self f rest)
    have hrest : ∀ g ∈ rest, frameTurnComplete g = false := fun g hg =>
      hpre g (List.mem_cons_of_mem f hg)
    have ihr := ih (acc ++ frameText f) hrest htc
    simp [drainVideo, hf, turnText, ihr, String.append_assoc]

theorem drainAudio_turn : ∀ (pre : List Frame) (tc : Frame)
    (post : List RecvEvent) (acc : String) (aud : Option String),
    (∀ f ∈ pre, frameTurnComplete f = false) → frameTurnComplete tc = true →
    drainAudio (pre.map RecvEvent.frame ++ RecvEvent.frame tc :: post) acc aud =
      Except.ok (acc ++ turnText (pre ++ [tc]), audioAfter aud (pre ++ [tc])) := by
  intro pre tc post
  induction pre with
  | nil =>
    intro acc aud _ htc
    simp [drainAudio, turnText, audioAfter, htc, String.append_empty]
  | cons f rest ih =>
    intro acc aud hpre htc
    have hf : frameTurnComplete f = false := hpre f (List.mem_cons_self f rest)
    have hrest : ∀ g ∈ rest, frameTurnComplete g = false := fun g hg =>
      hpre g (List.mem_cons_of_mem f hg)
    have ihr := ih (acc ++ frameText f) (audioUpd aud f) hrest htc
    simp [drainAudio, hf, turnText, audioAfter, ihr, String.append_assoc]

theorem audioAfter_lastPayload : ∀ (frames : List Frame) (aud : Option String),
    audioAfter aud frames =
      match lastPayload frames with
      | some bs => some (b64encode bs)
      | none => aud := by
  intro frames
  induction frames with
  | nil => intro aud; simp [audioAfter, lastPayload]
  | cons f rest ih =>
    intro aud
    cases hl : lastPayload rest with
    | some bs => simp [audioAfter, ih, hl, lastPayload]
    | none =>
      cases hp : framePayload f <;>
        simp [audioAfter, ih, hl, lastPayload, audioUpd, hp]

theorem drainVideo_err : ∀ (events : List RecvEvent) (e : String),
    drainErr events = some e → ∀ acc, drainVideo events acc = Except.error e := by
  intro events
  induction events with
  | nil => intro e he; simp [drainErr] at he
  | cons ev rest ih =>
    intro e he acc
    cases ev with
    | exn e2 =>
      simp [drainErr] at he
      simp [drainVideo, he]
    | frame f =>
      by_cases hf : frameTurnComplete f
      · simp [drainErr, hf] at he
      · simp only [drainErr, hf, if_neg] at he
        simp [drainVideo, hf, ih e he]

theorem drainAudio_err : ∀ (events : List RecvEvent) (e : String),
    drainErr events = some e →
    ∀ acc aud, drainAudio events acc aud = Except.error e := by
  intro events
  induction events with
  | nil => intro e he; simp [drainErr] at he
  | cons ev rest ih =>
    intro e he acc aud
    cases ev with
    | exn e2 =>
      simp [drainErr] at he
      simp [drainAudio, he]
    | frame f =>
      by_cases hf : frameTurnComplete f
      · simp [drainErr, hf] at he
      · simp only [drainErr, hf, if_neg] at he
        simp [drainAudio, hf, ih e he]

theorem drainVideo_ok : ∀ (events : List RecvEvent), drainErr events = none →
    ∀ acc, ∃ t, drainVideo events acc = Except.ok t := by
  intro events
  induction events with
  | nil => intro _ acc; exact ⟨acc, rfl⟩
  | cons ev rest ih =>
    intro he acc
    cases ev with
    | exn e2 => simp [drainErr] at he
    | frame f =>
      by_cases hf : frameTurnComplete f
      · exact ⟨acc ++ frameText f, by simp [drainVideo, hf]⟩
      · have he2 : drainErr rest = none := by simpa [drainErr, hf] using he
        obtain ⟨t, ht⟩ := ih he2 (acc ++ frameText f)
        exact ⟨t, by simp [drainVideo, hf, ht]⟩

theorem drainAudio_ok : ∀ (events : List RecvEvent), drainErr events = none →
    ∀ acc aud, ∃ p, drainAudio events acc aud = Except.ok p := by
  intro events
  induction events with
  | nil => intro _ acc aud; exact ⟨(acc, aud), rfl⟩
  | cons ev rest ih =>
    intro he acc aud
    cases ev with
    | exn e2 => simp [drainErr] at he
    | frame f =>
      by_cases hf : frameTurnComplete f
      · exact ⟨(acc ++ frameText f, audioUpd aud f), by simp [drainAudio, hf]⟩
      · have he2 : drainErr rest = none := by simpa [drainErr, hf] using he
        obtain ⟨p, hp⟩ := ih he2 (acc ++ frameText f) (audioUpd aud f)
        exact ⟨p, by simp [drainAudio, hf, hp]⟩

theorem video_result_timestamp (st1 : ApiState) (up : Upstream) (clock : Nat)
    (d : String) : (video_result st1 up clock d).timestamp = some clock := by
  unfold video_result
  (repeat' split) <;> simp [errorResult]

theorem video_result_rtype (st1 : ApiState) (up : Upstream) (clock : Nat)
    (d : String) : (video_result st1 up clock d).rtype = "analysis" ∨
      (video_result st1 up clock d).rtype = "error" := by
  unfold video_result
  (repeat' split) <;> simp [errorResult]

theorem audio_result_timestamp (st1 : ApiState) (up : Upstream) (clock : Nat)
    (d : String) : (audio_result st1 up clock d).timestamp = some clock := by
  unfold audio_result
  (repeat' split) <;> simp [errorResult]

theorem audio_result_rtype (st1 : ApiState) (up : Upstream) (clock : Nat)
    (d : String) : (audio_result st1 up clock d).rtype = "audio_analysis" ∨
      (audio_result st1 up clock d).rtype = "error" := by
  unfold audio_result
  (repeat' split) <;> simp [errorResult]

/- ## Claims -/

/-- Claim C1: when the upstream send or the receive iteration raises an
exception during `process_video_frame` or `process_audio_chunk`, the
operation does not propagate it: it returns the error dictionary whose
`content` is exactly the exception's description text, with no partially
accumulated response text included, and whose `timestamp` is set. -/
theorem c1_upstream_failure_yields_error_result
    (st : ApiState) (up : Upstream) (clock : Nat) (d e : String)
    (hready : st.session.isSome = true ∨ ∃ h, up.connect = Except.ok h)
    (hdec : (b64decode d).isOk = true)
    (hfail : up.send = Except.error e ∨
      (up.send = Except.ok () ∧ drainErr up.events = some e)) :
    (process_video_frame st up clock d).2 = errorResult e clock ∧
    (process_audio_chunk st up clock d "audio/webm").2 = errorResult e clock ∧
    (errorResult e clock).rtype = "error" ∧
    (errorResult e clock).content = e ∧
    (errorResult e clock).timestamp = some clock := by
  obtain ⟨h1, hs1⟩ := ensure_session_some st up hready
  obtain ⟨bs, hbs⟩ := b64decode_ok_exists d hdec
  refine ⟨?_, ?_, rfl, rfl, rfl⟩
  · show video_result (ensure_session st up) up clock d = errorResult e clock
    rcases hfail with hsend | ⟨hsend, herr⟩
    · simp [video_result, hs1, hbs, hsend]
    · simp [video_result, hs1, hbs, hsend, drainVideo_err up.events e herr ""]
  · show audio_result (ensure_session st up) up clock d = errorResult e clock
    rcases hfail with hsend | ⟨hsend, herr⟩
    · simp [audio_result, hs1, hbs, hsend]
    · simp [audio_result, hs1, hbs, hsend,
        drainAudio_err up.events e herr "" none]

/-- Claim C1 witness: a concrete call with a valid base64 input and a failing
upstream send returns the error dictionary. -/
theorem c1_witness :
    (process_video_frame ⟨some 1⟩ ⟨Except.ok 0, Except.error "boom", []⟩ 7
      "").2 = errorResult "boom" 7 :=
  (c1_upstream_failure_yields_error_result ⟨some 1⟩
    ⟨Except.ok 0, Except.error "boom", []⟩ 7 "" "boom"
    (Or.inl rfl) rfl (Or.inl rfl)).1

/-- Claim C2 counterexample: with a valid base64 input (`"AAAA"`) but a
failing upstream send, both operations return type `"error"`, not the type
matching the requested operation, so the claimed type does not hold on every
execution path. -/
theorem c2_counterexample :
    (b64decode "AAAA").isOk = true ∧
    (process_video_frame ⟨some 1⟩ ⟨Except.ok 0, Except.error "x", []⟩ 0
      "AAAA").2.rtype = "error" ∧
    (process_audio_chunk ⟨some 1⟩ ⟨Except.ok 0, Except.error "x", []⟩ 0
      "AAAA" "audio/webm").2.rtype = "error" ∧
    "error" ≠ "analysis" ∧ "error" ≠ "audio_analysis" := by
  refine ⟨by decide, by decide, by decide, by decide, by decide⟩

/-- Claim C2 (amended): for every input both operations return a result whose
`timestamp` is present (the clock reading) on every execution path; the
`type` field matches the requested operation on the successful path and is
`"error"` on exception paths. -/
theorem c2_amended_result_shape (st : ApiState) (up : Upstream) (clock : Nat)
    (d mt : String) :
    (process_video_frame st up clock d).2.timestamp = some clock ∧
    (process_audio_chunk st up clock d mt).2.timestamp = some clock ∧
    ((process_video_frame st up clock d).2.rtype = "analysis" ∨
      (process_video_frame st up clock d).2.rtype = "error") ∧
    ((process_audio_chunk st up clock d mt).2.rtype = "audio_analysis" ∨
      (process_audio_chunk st up clock d mt).2.rtype = "error") ∧
    ((st.session.isSome = true ∨ ∃ h, up.connect = Except.ok h) →
      (b64decode d).isOk = true → up.send = Except.ok () →
      drainErr up.events = none →
      (process_video_frame st up clock d).2.rtype = "analysis" ∧
      (process_audio_chunk st up clock d mt).2.rtype = "audio_analysis") := by
  refine ⟨video_result_timestamp _ _ _ _, audio_result_timestamp _ _ _ _,
    video_result_rtype _ _ _ _, audio_result_rtype _ _ _ _, ?_⟩
  intro hready hdec hsend hdrain
  obtain ⟨h1, hs1⟩ := ensure_session_some st up hready
  obtain ⟨bs, hbs⟩ := b64decode_ok_exists d hdec
  obtain ⟨t, ht⟩ := drainVideo_ok up.events hdrain ""
  obtain ⟨p, hp⟩ := drainAudio_ok up.events hdrain "" none
  obtain ⟨pt, pa⟩ := p
  constructor
  · show (video_result (ensure_session st up) up clock d).rtype = "analysis"
    simp [video_result, hs1, hbs, hsend, ht]
  · show (audio_result (ensure_session st up) up clock d).rtype =
      "audio_analysis"
    simp [audio_result, hs1, hbs, hsend, hp]

/-- Claim C2 (amended) witness: a successful turn yields the matching types
at a concrete input. -/
theorem c2_amended_witness :
    (process_video_frame ⟨some 1⟩
      ⟨Except.ok 0, Except.ok (), [RecvEvent.frame ⟨none, some ⟨none, true⟩⟩]⟩
      3 "QUJD").2.rtype = "analysis" ∧
    (process_audio_chunk ⟨some 1⟩
      ⟨Except.ok 0, Except.ok (), [RecvEvent.frame ⟨none, some ⟨none, true⟩⟩]⟩
      3 "QUJD" "audio/webm").2.rtype = "audio_analysis" :=
  (c2_amended_result_shape ⟨some 1⟩
    ⟨Except.ok 0, Except.ok (), [RecvEvent.frame ⟨none, some ⟨none, true⟩⟩]⟩
    3 "QUJD" "audio/webm").2.2.2.2 (Or.inl rfl) (by decide) rfl rfl

/-- Claim C3: when the upstream stream is a run of frames none of which is
turn-complete, then a turn-complete frame, then anything else, the text
content returned by `process_video_frame` (and `process_audio_chunk`) is the
concatenation, in arrival order, of the text of every frame up to and
including the first turn-complete frame, and the whole call is unchanged if
everything after the first turn-complete frame is removed (the drain loop
never reads past it). -/
theorem c3_turn_drain_concatenates_text (h0 : Nat) (up : Upstream)
    (clock : Nat) (d mt : String) (pre : List Frame) (tc : Frame)
    (post : List RecvEvent)
    (hev : up.events = pre.map RecvEvent.frame ++ RecvEvent.frame tc :: post)
    (hpre : ∀ f ∈ pre, frameTurnComplete f = false)
    (htc : frameTurnComplete tc = true)
    (hdec : (b64decode d).isOk = true) (hsend : up.send = Except.ok ()) :
    (process_video_frame ⟨some h0⟩ up clock d).2.content =
      turnText (pre ++ [tc]) ∧
    (process_audio_chunk ⟨some h0⟩ up clock d mt).2.content =
      turnText (pre ++ [tc]) ∧
    process_video_frame ⟨some h0⟩ up clock d =
      process_video_frame ⟨some h0⟩
        ⟨up.connect, up.send, pre.map RecvEvent.frame ++ [RecvEvent.frame tc]⟩
        clock d ∧
    process_audio_chunk ⟨some h0⟩ up clock d mt =
      process_audio_chunk ⟨some h0⟩
        ⟨up.connect, up.send, pre.map RecvEvent.frame ++ [RecvEvent.frame tc]⟩
        clock d mt := by
  obtain ⟨bs, hbs⟩ := b64decode_ok_exists d hdec
  have hv := drainVideo_turn pre tc post "" hpre htc
  have hv0 := drainVideo_turn pre tc [] "" hpre htc
  have ha := drainAudio_turn pre tc post "" none hpre htc
  have ha0 := drainAudio_turn pre tc [] "" none hpre htc
  refine ⟨?_, ?_, ?_, ?_⟩
  · show (video_result (ensure_session ⟨some h0⟩ up) up clock d).content =
      turnText (pre ++ [tc])
    simp [ensure_session, video_result, hbs, hsend, hev, hv,
      String.empty_append]
  · show (audio_result (ensure_session ⟨some h0⟩ up) up clock d).content =
      turnText (pre ++ [tc])
    simp [ensure_session, audio_result, hbs, hsend, hev, ha,
      String.empty_append]
  · simp [process_video_frame, ensure_session, video_result, hbs, hsend,
      hev, hv, hv0]
  · simp [process_audio_chunk, ensure_session, audio_result, hbs, hsend,
      hev, ha, ha0]

/-- Claim C3 witness: a two-frame turn followed by a late exception yields
the concatenated text of the two frames. -/
theorem c3_witness :
    (process_video_frame ⟨some 1⟩
      ⟨Except.ok 0, Except.ok (),
        [RecvEvent.frame ⟨none, some ⟨some [⟨some "Hello "⟩], false⟩⟩,
         RecvEvent.frame ⟨none, some ⟨some [⟨some "world"⟩], true⟩⟩,
         RecvEvent.exn "late"]⟩ 2 "QUJD").2.content =
      turnText ([⟨none, some ⟨some [⟨some "Hello "⟩], false⟩⟩] ++
        [⟨none, some ⟨some [⟨some "world"⟩], true⟩⟩]) ∧
    turnText ([⟨none, some ⟨some [⟨some "Hello "⟩], false⟩⟩] ++
        [⟨none, some ⟨some [⟨some "world"⟩], true⟩⟩]) = "Hello world" :=
  ⟨(c3_turn_drain_concatenates_text 1
      ⟨Except.ok 0, Except.ok (),
        [RecvEvent.frame ⟨none, some ⟨some [⟨some "Hello "⟩], false⟩⟩,
         RecvEvent.frame ⟨none, some ⟨some [⟨some "world"⟩], true⟩⟩,
         RecvEvent.exn "late"]⟩ 2 "QUJD" "audio/webm"
      [⟨none, some ⟨some [⟨some "Hello "⟩], false⟩⟩]
      ⟨none, some ⟨some [⟨some "world"⟩], true⟩⟩
      [RecvEvent.exn "late"] rfl (by decide) rfl (by decide) rfl).1,
    by decide⟩

/-- Claim C4: in any state with no session (such as the state left by
`close_session`), both media operations first establish a session through
`start_live_session` before sending: when the connect succeeds the call
behaves exactly as if the session already existed, stores the new handle,
and does not return a missing-session error. -/
theorem c4_implicit_session_start (st : ApiState) (up : Upstream)
    (clock : Nat) (d mt : String) (h : Nat)
    (hsess : st.session = none) (hconn : up.connect = Except.ok h) :
    process_video_frame st up clock d =
      process_video_frame ⟨some h⟩ up clock d ∧
    (process_video_frame st up clock d).1.session = some h ∧
    process_audio_chunk st up clock d mt =
      process_audio_chunk ⟨some h⟩ up clock d mt ∧
    (process_audio_chunk st up clock d mt).1.session = some h := by
  have he : ensure_session st up = ⟨some h⟩ :=
    ensure_session_of_none st up h hsess hconn
  have he2 : ensure_session ⟨some h⟩ up = ⟨some h⟩ := by
    simp [ensure_session]
  refine ⟨?_, ?_, ?_, ?_⟩ <;>
    simp [process_video_frame, process_audio_chunk, he, he2]

/-- Claim C4 witness: after closing (state with no session), a video call
with a reachable upstream stores the newly connected handle. -/
theorem c4_witness :
    (process_video_frame ⟨none⟩ ⟨Except.ok 4, Except.error "x", []⟩ 0
      "").1.session = some 4 :=
  (c4_implicit_session_start ⟨none⟩ ⟨Except.ok 4, Except.error "x", []⟩ 0
    "" "audio/webm" 4 rfl rfl).2.1

/-- Claim C5 counterexample: two `start_live_session` calls without an
intervening `close_session`, where the second connect returns a fresh
handle, leave the second handle stored, not the first: the second call does
not reuse the existing session handle. -/
theorem c5_counterexample :
    ((start_live_session ⟨none⟩ ⟨Except.ok 1, Except.ok (), []⟩).1).session
      = some 1 ∧
    ((start_live_session
        (start_live_session ⟨none⟩ ⟨Except.ok 1, Except.ok (), []⟩).1
        ⟨Except.ok 2, Except.ok (), []⟩).1).session = some 2 ∧
    ((start_live_session
        (start_live_session ⟨none⟩ ⟨Except.ok 1, Except.ok (), []⟩).1
        ⟨Except.ok 2, Except.ok (), []⟩).1).session ≠
      ((start_live_session ⟨none⟩ ⟨Except.ok 1, Except.ok (), []⟩).1).session
    := by
  refine ⟨rfl, rfl, by decide⟩

/-- Claim C5 (amended): a second `start_live_session` without an intervening
`close_session` does not reuse the stored handle: it reconnects, and on a
successful connect it overwrites the stored handle with the newly connected
one (on a failed connect the previously stored handle is kept). -/
theorem c5_amended_second_start_overwrites (st : ApiState)
    (up1 up2 : Upstream) :
    (∀ h2, up2.connect = Except.ok h2 →
      (start_live_session (start_live_session st up1).1 up2).1.session =
        some h2) ∧
    (∀ e, up2.connect = Except.error e →
      (start_live_session (start_live_session st up1).1 up2).1 =
        (start_live_session st up1).1) := by
  constructor
  · intro h2 hc
    simp [start_live_session, hc]
  · intro e hc
    simp [start_live_session, hc]

/-- Claim C5 (amended) witness: the concrete double start stores the second
handle. -/
theorem c5_amended_witness :
    (start_live_session
      (start_live_session ⟨none⟩ ⟨Except.ok 1, Except.ok (), []⟩).1
      ⟨Except.ok 2, Except.ok (), []⟩).1.session = some 2 :=
  (c5_amended_second_start_overwrites ⟨none⟩
    ⟨Except.ok 1, Except.ok (), []⟩ ⟨Except.ok 2, Except.ok (), []⟩).1 2 rfl

/-- Claim C6: `close_session` closes the stored upstream handle and clears
the stored handle when a session exists, is a no-op when none exists, and is
idempotent: a second close right after a first leaves the same state (and
closes nothing). -/
theorem c6_close_session_idempotent (st : ApiState) :
    (∀ h, st.session = some h → close_session st = (⟨none⟩, [h])) ∧
    (st.session = none → close_session st = (st, [])) ∧
    close_session (close_session st).1 = ((close_session st).1, []) ∧
    (close_session (close_session st).1).1 = (close_session st).1 := by
  obtain ⟨s⟩ := st
  cases s with
  | none =>
    refine ⟨?_, ?_, ?_, ?_⟩ <;> simp [close_session]
  | some h0 =>
    refine ⟨?_, ?_, ?_, ?_⟩ <;> simp [close_session]

/-- Claim C6 witness: closing a live session clears it and closes its
handle; closing again is a no-op. -/
theorem c6_witness :
    close_session ⟨some 3⟩ = (⟨none⟩, [3]) ∧
    close_session (close_session ⟨some 3⟩).1 =
      ((close_session ⟨some 3⟩).1, []) :=
  ⟨(c6_close_session_idempotent ⟨some 3⟩).1 3 rfl,
   (c6_close_session_idempotent ⟨some 3⟩).2.2.1⟩

/-- Claim C7: for a well-formed parsed inbound message, if its `type` is one
of the four recognised kinds the dispatcher sends exactly one response
envelope and the receive loop continues; for any other `type` it sends no
response and the loop continues with the state unchanged. -/
theorem c7_dispatch_response_count (st : ApiState) (up : Upstream)
    (clock : Nat) (ty : String) (dat mime : Option String)
    (hwf : wellFormed (InMsg.parsed (some ty) dat mime)) :
    (ty ∈ knownTypes →
      ∃ st2 out, handleMessage st up clock (InMsg.parsed (some ty) dat mime)
        = StepOut.ok st2 [out]) ∧
    (ty ∉ knownTypes →
      handleMessage st up clock (InMsg.parsed (some ty) dat mime)
        = StepOut.ok st []) := by
  obtain ⟨-, hdat⟩ := hwf
  constructor
  · intro hk
    simp only [knownTypes, List.mem_cons, List.mem_singleton,
      List.not_mem_nil, or_false] at hk
    rcases hk with h | h | h | h <;> subst h
    · obtain ⟨d, hd⟩ := Option.isSome_iff_exists.mp (hdat (Or.inl rfl))
      subst hd
      exact ⟨(process_video_frame st up clock d).1,
        OutMsg.result (process_video_frame st up clock d).2,
        by simp [handleMessage]⟩
    · obtain ⟨d, hd⟩ := Option.isSome_iff_exists.mp (hdat (Or.inr rfl))
      subst hd
      exact ⟨(process_audio_chunk st up clock d (mime.getD "audio/webm")).1,
        OutMsg.result
          (process_audio_chunk st up clock d (mime.getD "audio/webm")).2,
        by simp [handleMessage]⟩
    · exact ⟨(start_live_session st up).1,
        OutMsg.sessionStatus
          (if (start_live_session st up).2 = true then "connected"
           else "error"),
        by simp [handleMessage]⟩
    · exact ⟨(close_session st).1, OutMsg.sessionStatus "disconnected",
        by simp [handleMessage]⟩
  · intro hk
    simp only [knownTypes, List.mem_cons, List.mem_singleton,
      List.not_mem_nil, or_false, not_or] at hk
    obtain ⟨h1, h2, h3, h4⟩ := hk
    simp [handleMessage, h1, h2, h3, h4]

/-- Claim C7 witness: a `stop_session` message gets exactly one response and
an unknown type gets none, with the loop continuing. -/
theorem c7_witness :
    (∃ st2 out, handleMessage ⟨some 3⟩ ⟨Except.ok 0, Except.ok (), []⟩ 0
      (InMsg.parsed (some "stop_session") none none) = StepOut.ok st2 [out])
    ∧ handleMessage ⟨some 3⟩ ⟨Except.ok 0, Except.ok (), []⟩ 0
      (InMsg.parsed (some "bogus") none none) = StepOut.ok ⟨some 3⟩ [] :=
  ⟨(c7_dispatch_response_count ⟨some 3⟩ ⟨Except.ok 0, Except.ok (), []⟩ 0
      "stop_session" none none
      ⟨rfl, fun h => by rcases h with h | h <;> exact absurd h (by decide)⟩).1
      (by decide),
   (c7_dispatch_response_count ⟨some 3⟩ ⟨Except.ok 0, Except.ok (), []⟩ 0
      "bogus" none none
      ⟨rfl, fun h => by rcases h with h | h <;> exact absurd h (by decide)⟩).2
      (by decide)⟩

/-- Claim C8 (code behaviour at the failing input): an unparseable message,
or one lacking the `type` field, makes the exception escape the `async for`
body, terminating the connection's receive loop: the subsequent well-formed
`start_session` message is never processed and nothing is sent, whereas the
same `start_session` message alone is processed and answered. -/
theorem c8_malformed_terminates_receive_loop :
    runClient ⟨none⟩
      [(InMsg.malformed, ⟨Except.ok 1, Except.ok (), []⟩, 0),
       (InMsg.parsed (some "start_session") none none,
         ⟨Except.ok 1, Except.ok (), []⟩, 1)]
      = (⟨none⟩, [], false) ∧
    runClient ⟨none⟩
      [(InMsg.parsed none (some "eA==") none, ⟨Except.ok 1, Except.ok (), []⟩, 0),
       (InMsg.parsed (some "start_session") none none,
         ⟨Except.ok 1, Except.ok (), []⟩, 1)]
      = (⟨none⟩, [], false) ∧
    runClient ⟨none⟩
      [(InMsg.parsed (some "start_session") none none,
         ⟨Except.ok 1, Except.ok (), []⟩, 1)]
      = (⟨some 1⟩, [OutMsg.sessionStatus "connected"], true) := by
  refine ⟨rfl, rfl, rfl⟩

/-- Claim C9: when a session already exists, neither media operation changes
the stored session handle, on the success path or the error path: the state
on return is the state on entry. -/
theorem c9_media_ops_preserve_session (st : ApiState) (up : Upstream)
    (clock : Nat) (d mt : String) (h : Nat) (hsess : st.session = some h) :
    (process_video_frame st up clock d).1 = st ∧
    (process_audio_chunk st up clock d mt).1 = st := by
  have he : ensure_session st up = st := ensure_session_of_some st up h hsess
  constructor <;> simp [process_video_frame, process_audio_chunk, he]

/-- Claim C9 witness: a failing video call leaves the stored handle intact. -/
theorem c9_witness :
    (process_video_frame ⟨some 2⟩ ⟨Except.ok 9, Except.error "x", []⟩ 0
      "").1 = ⟨some 2⟩ :=
  (c9_media_ops_preserve_session ⟨some 2⟩ ⟨Except.ok 9, Except.error "x", []⟩
    0 "" "audio/webm" 2 rfl).1

/-- Claim C10: over one drained turn, the `audio_response` field of the
audio result is the base64 encoding of the payload of the last frame (up to
and including the first turn-complete frame) that carries a truthy binary
payload — later payloads overwrite earlier ones — and is `null` when no
frame carries one. -/
theorem c10_last_audio_payload_wins (h0 : Nat) (up : Upstream) (clock : Nat)
    (d mt : String) (pre : List Frame) (tc : Frame) (post : List RecvEvent)
    (hev : up.events = pre.map RecvEvent.frame ++ RecvEvent.frame tc :: post)
    (hpre : ∀ f ∈ pre, frameTurnComplete f = false)
    (htc : frameTurnComplete tc = true)
    (hdec : (b64decode d).isOk = true) (hsend : up.send = Except.ok ()) :
    (process_audio_chunk ⟨some h0⟩ up clock d mt).2.audioResponse =
      some ((lastPayload (pre ++ [tc])).map b64encode) := by
  obtain ⟨bs, hbs⟩ := b64decode_ok_exists d hdec
  have ha := drainAudio_turn pre tc post "" none hpre htc
  have hl := audioAfter_lastPayload (pre ++ [tc]) none
  show (audio_result (ensure_session ⟨some h0⟩ up) up clock d).audioResponse
    = some ((lastPayload (pre ++ [tc])).map b64encode)
  cases hlp : lastPayload (pre ++ [tc]) with
  | some bs2 =>
    rw [hlp] at hl
    simp [ensure_session, audio_result, hbs, hsend, hev, ha, hl, hlp]
  | none =>
    rw [hlp] at hl
    simp [ensure_session, audio_result, hbs, hsend, hev, ha, hl, hlp]

/-- Claim C10 witness: with payloads `[1, 2]` then `[3, 4]` in one turn, the
returned `audio_response` is the encoding of `[3, 4]` only. -/
theorem c10_witness :
    (process_audio_chunk ⟨some 5⟩
      ⟨Except.ok 0, Except.ok (),
        [RecvEvent.frame ⟨some [1, 2], none⟩,
         RecvEvent.frame ⟨some [3, 4], some ⟨none, true⟩⟩]⟩ 2 ""
      "audio/webm").2.audioResponse = some (some (b64encode [3, 4])) ∧
    b64encode [3, 4] = "AwQ=" :=
  ⟨by
    have h := c10_last_audio_payload_wins 5
      ⟨Except.ok 0, Except.ok (),
        [RecvEvent.frame ⟨some [1, 2], none⟩,
         RecvEvent.frame ⟨some [3, 4], some ⟨none, true⟩⟩]⟩ 2 "" "audio/webm"
      [⟨some [1, 2], none⟩] ⟨some [3, 4], some ⟨none, true⟩⟩ []
      rfl (by decide) rfl rfl rfl
    simpa [lastPayload, framePayload] using h,
   by decide⟩
